import Mathlib

/-
  Verification development for the MCP bridge core of blender-orchestrator.

  The embedding below translates src/blender_addon/server/http_server.py
  (classes NonBlockingHTTPServer, BlenderRequestHandler, BlenderHTTPServer)
  and the modal timer loop of
  src/blender_addon/operators/server_operator.py into Lean.

  Conventions of the embedding:
  - Python values decoded from JSON are modelled by the inductive `J`.
  - A Python dict is modelled as an association list; `dictGet`, `dictSet`,
    `dictPop` mirror `d.get(k)`, `d[k] = v`, `d.pop(k)` for string keys, and
    the `jdict*` family mirrors the same operations for dicts whose keys are
    arbitrary decoded values (the request-id keyed `response_dict` and
    `response_events`).  Python dict keys are unique, so first-match lookup
    and replace-in-place agree with dict semantics.
  - Raising Python code is modelled in `Except String`: `Except.error m`
    means the operation raised an exception whose `str()` is `m`.
  - A `threading.Event` is modelled as a `Bool` (`true` = set).
  - `queue.Queue` is FIFO (Python stdlib contract): `queuePut` appends,
    `queueGetNowait` removes the oldest element or reports `Empty`.
-/

namespace BlenderOrch

/-- Decoded JSON values, the possible results of `json.loads` on a request
body (http_server.py line 64). -/
inductive J where
  | null
  | bool (b : Bool)
  | num (n : Int)
  | str (s : String)
  | arr (xs : List J)
  | obj (fields : List (String × J))

/-- `{"success": True, "result": r}` (http_server.py line 159). -/
def successBody (r : J) : J :=
  J.obj [("success", J.bool true), ("result", r)]

/-- `{"success": False, "error": m}` (http_server.py lines 84, 92, 94, 161,
163). -/
def errorBody (m : String) : J :=
  J.obj [("success", J.bool false), ("error", J.str m)]

/-- Python `d.get(k)` for a string-keyed dict. -/
def dictGet (d : List (String × J)) (k : String) : Option J :=
  match d with
  | [] => none
  | (k', v) :: rest => if k' = k then some v else dictGet rest k

/-- Python `d.get(k, dflt)`. -/
def dictGetD (d : List (String × J)) (k : String) (dflt : J) : J :=
  (dictGet d k).getD dflt

/-- Python `d[k] = v`: replace in place if the key exists, else append. -/
def dictSet (d : List (String × J)) (k : String) (v : J) : List (String × J) :=
  match d with
  | [] => [(k, v)]
  | (k', v') :: rest =>
    if k' = k then (k', v) :: rest else (k', v') :: dictSet rest k v

/-- Python `d.pop(k)`: the value and the remaining dict, or KeyError. -/
def dictPop (d : List (String × J)) (k : String) :
    Except String (J × List (String × J)) :=
  match d with
  | [] => Except.error ("KeyError: " ++ k)
  | (k', v) :: rest =>
    if k' = k then Except.ok (v, rest)
    else
      match dictPop rest k with
      | Except.error e => Except.error e
      | Except.ok (v0, rest0) => Except.ok (v0, (k', v) :: rest0)

/-- Equality test used for keys of `response_dict` / `response_events`.
Every key actually stored is a `J.str` request id (do_POST line 65), so only
hashable scalar keys need to compare equal; composite values are never stored
as keys (they are rejected as unhashable before any store). -/
def jkeyEq : J → J → Bool
  | J.null, J.null => true
  | J.bool a, J.bool b => a == b
  | J.num a, J.num b => a == b
  | J.str a, J.str b => a == b
  | _, _ => false

/-- Python `d.get(k)` for a dict keyed by decoded values. -/
def jdictGet {α : Type} (d : List (J × α)) (k : J) : Option α :=
  match d with
  | [] => none
  | (k', v) :: rest => if jkeyEq k' k then some v else jdictGet rest k

/-- Python `k in d`. -/
def jdictContains {α : Type} (d : List (J × α)) (k : J) : Bool :=
  (jdictGet d k).isSome

/-- Python `d[k] = v`: replace in place if the key exists, else append. -/
def jdictSet {α : Type} (d : List (J × α)) (k : J) (v : α) : List (J × α) :=
  match d with
  | [] => [(k, v)]
  | (k', v') :: rest =>
    if jkeyEq k' k then (k', v) :: rest else (k', v') :: jdictSet rest k v

/-- Python `d.pop(k)` returning `none` when the key is absent (used to model
the checked pop `if k in d: d.pop(k)` of do_POST lines 79-80). -/
def jdictPop {α : Type} (d : List (J × α)) (k : J) :
    Option (α × List (J × α)) :=
  match d with
  | [] => none
  | (k', v) :: rest =>
    if jkeyEq k' k then some (v, rest)
    else
      match jdictPop rest k with
      | none => none
      | some (v0, rest0) => some (v0, (k', v) :: rest0)

/-- Python `del d[k]`.  Dict keys are unique, so removing every binding of
`k` from the association list is the same operation. -/
def jdictDel {α : Type} (d : List (J × α)) (k : J) : List (J × α) :=
  d.filter (fun p => !(jkeyEq p.1 k))

/-- `if k in d: del d[k]` (do_POST lines 88-89). -/
def jdictDelIfPresent {α : Type} (d : List (J × α)) (k : J) : List (J × α) :=
  if jdictContains d k then jdictDel d k else d

/-- Python hashability of a decoded JSON value: lists and dicts are
unhashable, every other decoded value is hashable. -/
def pyHashable : J → Bool
  | J.arr _ => false
  | J.obj _ => false
  | _ => true

/-- Python `str()` of a decoded value, as interpolated by the f-string
`f"Unknown action: {action}"` (http_server.py line 163).  The `arr`/`obj`
cases never reach that f-string: an unhashable action raises TypeError at
`handler_registry.get(action)` (line 154) first. -/
def pyStr : J → String
  | J.null => "None"
  | J.bool true => "True"
  | J.bool false => "False"
  | J.num n => toString n
  | J.str s => s
  | J.arr _ => "[list]"
  | J.obj _ => "\x7bdict\x7d"

/-- `str()` of `request.get("action")`: a missing key yields Python `None`. -/
def pyStrOpt : Option J → String
  | none => "None"
  | some v => pyStr v

/-- A domain handler: takes the structured parameter map, returns a result
or raises with message `m` (modelled as `Except.error m`). -/
def Handler : Type := J → Except String J

/-- The handler registry `Dict[str, Callable]` passed to `process_queue`. -/
def HandlerRegistry : Type := List (String × Handler)

/-- Python dict lookup in the string-keyed registry. -/
def regLookup (reg : HandlerRegistry) (a : String) : Option Handler :=
  match reg with
  | [] => none
  | (k, h) :: rest => if k = a then some h else regLookup rest a

/-- `handler_registry.get(action)` (http_server.py line 154), where `action`
is `request.get("action")`.  A string action is looked up; an absent action
(Python `None`) or any other hashable value is simply not a key of the
string-keyed registry and yields `None`; an unhashable value (decoded list or
dict) raises TypeError, which `process_queue` does not catch. -/
def registryGet (reg : HandlerRegistry) (action : Option J) :
    Except String (Option Handler) :=
  match action with
  | none => Except.ok none
  | some (J.str a) => Except.ok (regLookup reg a)
  | some (J.arr _) => Except.error "unhashable type: list"
  | some (J.obj _) => Except.error "unhashable type: dict"
  | some _ => Except.ok none

/-- The shared mutable state of `BlenderHTTPServer` together with the
`response_events` dict living on its `NonBlockingHTTPServer`:
`request_queue`, `response_dict`, `response_events`, and whether
`self.server` is currently set (`serverAlive`), which guards the signalling
step `if self.server and request_id in self.server.response_events`
(http_server.py line 167). -/
structure ServerState where
  requestQueue : List (List (String × J))
  responseDict : List (J × J)
  responseEvents : List (J × Bool)
  serverAlive : Bool

/-- `queue.Queue.put`: FIFO append (http_server.py line 73). -/
def queuePut (q : List (List (String × J))) (e : List (String × J)) :
    List (List (String × J)) :=
  q ++ [e]

/-- `queue.Queue.get_nowait`: oldest element, or `none` for `queue.Empty`
(http_server.py line 149). -/
def queueGetNowait (q : List (List (String × J))) :
    Option (List (String × J) × List (List (String × J))) :=
  match q with
  | [] => none
  | e :: rest => some (e, rest)

/-- `BlenderHTTPServer.process_queue` (http_server.py lines 146-171).
`Except.error m` models an exception escaping `process_queue` (only
`queue.Empty` is caught by the source's try/except). -/
def process_queue (reg : HandlerRegistry) (s : ServerState) :
    Except String ServerState :=
  match queueGetNowait s.requestQueue with
  | none => Except.ok s
  | some (request, rest) =>
    match dictPop request "_request_id" with
    | Except.error e => Except.error e
    | Except.ok (ridVal, request2) =>
      let action := dictGet request2 "action"
      match registryGet reg action with
      | Except.error e => Except.error e
      | Except.ok hOpt =>
        let response : J :=
          match hOpt with
          | some h =>
            match h (dictGetD request2 "params" (J.obj [])) with
            | Except.ok result => successBody result
            | Except.error e => errorBody e
          | none => errorBody ("Unknown action: " ++ pyStrOpt action)
        if pyHashable ridVal then
          Except.ok { s with
            requestQueue := rest
            responseDict := jdictSet s.responseDict ridVal response
            responseEvents :=
              if s.serverAlive && jdictContains s.responseEvents ridVal then
                jdictSet s.responseEvents ridVal true
              else s.responseEvents }
        else Except.error "unhashable type"

/-- What `do_POST` has done by the time it reaches (or skips) the blocking
`event.wait`: either a response was already sent (parse error or the
TypeError from `request["_request_id"] = request_id` on a non-dict body,
both answered without touching the queue), or the request was registered and
enqueued and the calling thread now waits on the event. -/
inductive PostPhase1 where
  | responded (status : Nat) (body : J)
  | waiting (rid : String)

/-- `request["_request_id"] = request_id` (http_server.py line 66): succeeds
on a decoded dict, raises TypeError on any other decoded value.  The error
strings follow the `str()` of the TypeError CPython raises (CPython quotes
the type name; the quotes are omitted here). -/
def setitemRequestId (v : J) (rid : String) :
    Except String (List (String × J)) :=
  match v with
  | J.obj fields => Except.ok (dictSet fields "_request_id" (J.str rid))
  | J.str _ => Except.error "str object does not support item assignment"
  | J.num _ => Except.error "int object does not support item assignment"
  | J.bool _ => Except.error "bool object does not support item assignment"
  | J.null =>
    Except.error "NoneType object does not support item assignment"
  | J.arr _ => Except.error "list indices must be integers or slices, not str"

/-- First half of `BlenderRequestHandler.do_POST` (http_server.py lines
58-76 and the except clauses 91-94): `parsed` is the outcome of
`json.loads` on the body (`Except.error e` = JSONDecodeError with message
`e`), `rid` the generated request id.  A parse error answers 400; a
non-dict body answers 500 with the TypeError message (caught by the generic
`except Exception`); a dict body registers a fresh unset event, enqueues the
mutated request, and proceeds to `event.wait(timeout=30.0)`. -/
def do_POST_phase1 (parsed : Except String J) (rid : String)
    (s : ServerState) : PostPhase1 × ServerState :=
  match parsed with
  | Except.error e =>
    (PostPhase1.responded 400 (errorBody ("Invalid JSON: " ++ e)), s)
  | Except.ok v =>
    match setitemRequestId v rid with
    | Except.error e => (PostPhase1.responded 500 (errorBody e), s)
    | Except.ok request =>
      (PostPhase1.waiting rid,
        { s with
          responseEvents := jdictSet s.responseEvents (J.str rid) false
          requestQueue := queuePut s.requestQueue request })

/-- Second half of `do_POST` (http_server.py lines 78-89), entered when
`event.wait` returns (signalled or timed out): if an outcome is present it
is popped and sent with 200; otherwise the structured timeout error is sent
with 500; in both branches the event entry is then deleted if present. -/
def do_POST_afterWait (rid : String) (s : ServerState) :
    (Nat × J) × ServerState :=
  match jdictPop s.responseDict (J.str rid) with
  | some (resp, rd) =>
    ((200, resp),
      { s with
        responseDict := rd
        responseEvents := jdictDelIfPresent s.responseEvents (J.str rid) })
  | none =>
    ((500, errorBody "Request timeout"),
      { s with
        responseEvents := jdictDelIfPresent s.responseEvents (J.str rid) })

/-- Lifecycle state of `BlenderHTTPServer` (http_server.py lines 119-139,
173-179): the configured host/port, the `running` flag and whether
`self.server` is set. -/
structure Lifecycle where
  host : String
  port : Nat
  running : Bool
  hasServer : Bool

/-- `BlenderHTTPServer.start` (http_server.py lines 127-139).  `env` is the
set of currently bound ports (the server's own binding included while it
holds one); constructing `NonBlockingHTTPServer` binds the socket and raises
OSError if the port is taken (`allow_reuse_address` lets a closed port be
rebound immediately).  Starting while `running` returns without change. -/
def start (l : Lifecycle) (env : List Nat) :
    Except String (Lifecycle × List Nat) :=
  if l.running then Except.ok (l, env)
  else if l.port ∈ env then Except.error "address already in use"
  else Except.ok ({ l with running := true, hasServer := true }, l.port :: env)

/-- `BlenderHTTPServer.shutdown` (http_server.py lines 173-179): if
`self.server` is set, clear `running`, close the socket (releasing the
port) and drop the server; otherwise do nothing. -/
def shutdown (l : Lifecycle) (env : List Nat) : Lifecycle × List Nat :=
  if l.hasServer then
    ({ l with running := false, hasServer := false }, env.erase l.port)
  else (l, env)

/-- Primitive operations observed while one TIMER event of
`BLENDER_OT_mcp_server_start.modal` runs.  Everything in the trace executes
synchronously on the thread that delivered the timer event
(server_operator.py lines 17-30): `NonBlockingHTTPServer` is a plain
`socketserver.TCPServer`, so `handle_request` dispatches
`BlenderRequestHandler.do_POST` in the calling thread. -/
inductive Step where
  | selectSocket
  | getNowait
  | eventWait (rid : String)
  | sendResponse
deriving DecidableEq

/-- Steps `do_POST` executes for a request whose body parses to `parsed`:
only a decoded dict reaches `event.wait(timeout=30.0)` (http_server.py line
76); every path ends by writing a response. -/
def do_POST_steps (parsed : Except String J) (rid : String) : List Step :=
  match parsed with
  | Except.error _ => [Step.sendResponse]
  | Except.ok (J.obj _) => [Step.eventWait rid, Step.sendResponse]
  | Except.ok _ => [Step.sendResponse]

/-- Steps of `NonBlockingHTTPServer.handle_request_noblock` (http_server.py
lines 45-52): a zero-timeout select, then, if a connection is pending,
`handle_request`, which runs `do_POST` in the calling thread. -/
def handle_request_noblock_steps
    (conn : Option (Except String J × String)) : List Step :=
  Step.selectSocket ::
    match conn with
    | none => []
    | some (parsed, rid) => do_POST_steps parsed rid

/-- Steps of `BlenderHTTPServer.poll` (http_server.py lines 141-144). -/
def poll_steps (active : Bool) (conn : Option (Except String J × String)) :
    List Step :=
  if active then handle_request_noblock_steps conn else []

/-- Steps of `process_queue` relevant to blocking behaviour: the single
non-blocking `get_nowait`. -/
def process_queue_steps : List Step :=
  [Step.getNowait]

/-- Steps one TIMER event of `modal` executes (server_operator.py lines
17-30): `server.poll()` then `server.process_queue(...)`, both on the
thread that received the timer event. -/
def modal_tick_steps (active : Bool)
    (conn : Option (Except String J × String)) : List Step :=
  poll_steps active conn ++ process_queue_steps

/-- An empty fresh server state (as after `BlenderHTTPServer.__init__` plus
a live `NonBlockingHTTPServer`), used to instantiate concrete scenarios. -/
def S0 : ServerState :=
  { requestQueue := [], responseDict := [], responseEvents := []
    serverAlive := true }

theorem jkeyEq_str_refl (a : String) : jkeyEq (J.str a) (J.str a) = true := by
  simp [jkeyEq]

theorem jdictGet_set_self {α : Type} (d : List (J × α)) (k : J) (v : α)
    (hk : jkeyEq k k = true) : jdictGet (jdictSet d k v) k = some v := by
  induction d with
  | nil => simp [jdictSet, jdictGet, hk]
  | cons p rest ih =>
    by_cases h : jkeyEq p.1 k = true
    · simp [jdictSet, jdictGet, h]
    · simp [jdictSet, jdictGet, h, ih]

theorem jdictPop_eq_none {α : Type} (d : List (J × α)) (k : J)
    (h : jdictGet d k = none) : jdictPop d k = none := by
  induction d with
  | nil => simp [jdictPop]
  | cons p rest ih =>
    by_cases hp : jkeyEq p.1 k = true
    · simp [jdictGet, hp] at h
    · simp [jdictGet, hp] at h
      simp [jdictPop, hp, ih h]

theorem jdictGet_del_self {α : Type} (d : List (J × α)) (k : J) :
    jdictGet (jdictDel d k) k = none := by
  induction d with
  | nil => simp [jdictDel, jdictGet]
  | cons p rest ih =>
    by_cases hp : jkeyEq p.1 k = true
    · simpa [jdictDel, hp] using ih
    · simpa [jdictDel, jdictGet, hp] using ih

theorem jdictGet_delIfPresent_self {α : Type} (d : List (J × α)) (k : J) :
    jdictGet (jdictDelIfPresent d k) k = none := by
  unfold jdictDelIfPresent jdictContains
  cases hd : jdictGet d k with
  | none => simp [hd]
  | some v => simp [hd, jdictGet_del_self]

/-- C8: The Handoff Queue is FIFO: envelopes A, B, C enqueued in that order
by the Listener (`request_queue.put`) are yielded in the same order by the
repeated non-blocking dequeues (`get_nowait`) of `process_queue`, so
envelopes are dispatched in arrival order. -/
theorem handoff_queue_fifo (A B C : List (String × J)) :
    queueGetNowait (queuePut (queuePut (queuePut [] A) B) C)
      = some (A, [B, C]) ∧
    queueGetNowait [B, C] = some (B, [C]) ∧
    queueGetNowait [C] = some (C, []) := by
  simp [queuePut, queueGetNowait]

/-- C5: each `process_queue` call removes at most one envelope from the
Handoff Queue: on an empty queue it returns immediately with the state
unchanged, and on a queue of N = 1 + (length rest) envelopes it processes
exactly the oldest one and leaves the remaining N-1 queued. -/
theorem process_queue_bounded (reg : HandlerRegistry) (s : ServerState) :
    (s.requestQueue = [] → process_queue reg s = Except.ok s) ∧
    (∀ env rest rid request2 hOpt,
      s.requestQueue = env :: rest →
      dictPop env "_request_id" = Except.ok (J.str rid, request2) →
      registryGet reg (dictGet request2 "action") = Except.ok hOpt →
      ∃ s2, process_queue reg s = Except.ok s2 ∧
        s2.requestQueue = rest ∧
        (jdictGet s2.responseDict (J.str rid)).isSome = true) := by
  constructor
  · intro h
    simp [process_queue, queueGetNowait, h]
  · intro env rest rid request2 hOpt hq hpop hreg
    simp only [process_queue, queueGetNowait, hq, hpop, hreg, pyHashable]
    refine ⟨_, rfl, by simp, ?_⟩
    simp [jdictGet_set_self _ _ _ (jkeyEq_str_refl rid)]

/-- C5 witness: on the empty state `process_queue` is a no-op, and on a
concrete two-envelope queue it consumes the oldest envelope and leaves the
other one. -/
theorem process_queue_bounded_witness :
    process_queue [] S0 = Except.ok S0 ∧
    (∃ s2,
      process_queue []
        { requestQueue :=
            [[("_request_id", J.str "r1"), ("action", J.str "a")],
             [("_request_id", J.str "r2"), ("action", J.str "b")]]
          responseDict := [], responseEvents := [], serverAlive := true }
        = Except.ok s2 ∧
      s2.requestQueue = [[("_request_id", J.str "r2"), ("action", J.str "b")]] ∧
      (jdictGet s2.responseDict (J.str "r1")).isSome = true) := by
  refine ⟨(process_queue_bounded [] S0).1 rfl, ?_⟩
  exact (process_queue_bounded []
      { requestQueue :=
          [[("_request_id", J.str "r1"), ("action", J.str "a")],
           [("_request_id", J.str "r2"), ("action", J.str "b")]]
        responseDict := [], responseEvents := [], serverAlive := true }).2
    [("_request_id", J.str "r1"), ("action", J.str "a")]
    [[("_request_id", J.str "r2"), ("action", J.str "b")]]
    "r1" [("action", J.str "a")] none rfl rfl rfl

/-- C6 counterexample: an envelope whose `action` is the decoded list `[]`
has no entry in the (here empty) handler registry, yet `process_queue` does
not produce an "Unknown action" Outcome: `handler_registry.get(action)`
raises TypeError (unhashable key), which only the `except Empty` clause
surrounds, so the exception escapes `process_queue`. -/
theorem unknown_action_unhashable_raises :
    process_queue []
      { requestQueue := [[("_request_id", J.str "r1"), ("action", J.arr [])]]
        responseDict := [], responseEvents := [(J.str "r1", false)]
        serverAlive := true }
      = Except.error "unhashable type: list" := by
  rfl

/-- C6 amended: when `process_queue` dequeues an envelope whose `action` is
a string with no entry in the handler registry, it produces exactly the
Outcome `success:false, error:"Unknown action: <name>"`, stores it in
`response_dict`, signals the pending call (sets its event), and does not
raise.  (An envelope whose `action` decodes to a JSON array or object
instead raises TypeError out of `process_queue`.) -/
theorem unknown_action_outcome (reg : HandlerRegistry) (s : ServerState)
    (env request2 : List (String × J)) (rest : List (List (String × J)))
    (rid a : String) (ev : Bool)
    (hq : s.requestQueue = env :: rest)
    (hpop : dictPop env "_request_id" = Except.ok (J.str rid, request2))
    (hact : dictGet request2 "action" = some (J.str a))
    (hreg : regLookup reg a = none)
    (hev : jdictGet s.responseEvents (J.str rid) = some ev)
    (halive : s.serverAlive = true) :
    ∃ s2, process_queue reg s = Except.ok s2 ∧
      jdictGet s2.responseDict (J.str rid)
        = some (errorBody ("Unknown action: " ++ a)) ∧
      jdictGet s2.responseEvents (J.str rid) = some true := by
  simp only [process_queue, queueGetNowait, hq, hpop, hact, registryGet,
    hreg, pyHashable, halive, jdictContains, hev, Option.isSome_some,
    Bool.true_and, if_true]
  refine ⟨_, rfl, ?_, ?_⟩
  · simp [pyStrOpt, pyStr, jdictGet_set_self _ _ _ (jkeyEq_str_refl rid)]
  · simp [jdictGet_set_self _ _ _ (jkeyEq_str_refl rid)]

/-- C6 amended witness: a concrete envelope with the unknown string action
"does_not_exist" yields the exact unknown-action error body and sets the
pending event. -/
theorem unknown_action_outcome_witness :
    ∃ s2,
      process_queue []
        { requestQueue :=
            [[("_request_id", J.str "r1"), ("action", J.str "does_not_exist")]]
          responseDict := [], responseEvents := [(J.str "r1", false)]
          serverAlive := true }
        = Except.ok s2 ∧
      jdictGet s2.responseDict (J.str "r1")
        = some (errorBody "Unknown action: does_not_exist") ∧
      jdictGet s2.responseEvents (J.str "r1") = some true := by
  exact unknown_action_outcome []
    { requestQueue :=
        [[("_request_id", J.str "r1"), ("action", J.str "does_not_exist")]]
      responseDict := [], responseEvents := [(J.str "r1", false)]
      serverAlive := true }
    [("_request_id", J.str "r1"), ("action", J.str "does_not_exist")]
    [("action", J.str "does_not_exist")] [] "r1" "does_not_exist" false
    rfl rfl rfl rfl rfl rfl

/-- C10: for every command envelope that omits the "params" key, the
Dispatcher invokes the resolved handler with the empty map (Python
`request.get("params", {})`), and the stored Outcome is exactly the
handler's result on that empty map. -/
theorem params_default_empty (reg : HandlerRegistry) (s : ServerState)
    (env request2 : List (String × J)) (rest : List (List (String × J)))
    (rid a : String) (h : Handler)
    (hq : s.requestQueue = env :: rest)
    (hpop : dictPop env "_request_id" = Except.ok (J.str rid, request2))
    (hact : dictGet request2 "action" = some (J.str a))
    (hreg : regLookup reg a = some h)
    (hnp : dictGet request2 "params" = none) :
    dictGetD request2 "params" (J.obj []) = J.obj [] ∧
    ∃ s2, process_queue reg s = Except.ok s2 ∧
      jdictGet s2.responseDict (J.str rid)
        = some (match h (J.obj []) with
            | Except.ok r => successBody r
            | Except.error m => errorBody m) := by
  have harg : dictGetD request2 "params" (J.obj []) = J.obj [] := by
    simp [dictGetD, hnp]
  refine ⟨harg, ?_⟩
  simp only [process_queue, queueGetNowait, hq, hpop, hact, registryGet,
    hreg, pyHashable, harg, if_true]
  refine ⟨_, rfl, ?_⟩
  cases hr : h (J.obj []) with
  | ok r => simp [hr, jdictGet_set_self _ _ _ (jkeyEq_str_refl rid)]
  | error m => simp [hr, jdictGet_set_self _ _ _ (jkeyEq_str_refl rid)]

/-- C10 witness: a concrete envelope without "params" is dispatched to a
handler that echoes its argument; the stored result is the echo of the
empty map. -/
theorem params_default_empty_witness :
    dictGetD [("action", J.str "echo")] "params" (J.obj []) = J.obj [] ∧
    ∃ s2,
      process_queue [("echo", fun p => Except.ok p)]
        { requestQueue := [[("_request_id", J.str "r1"), ("action", J.str "echo")]]
          responseDict := [], responseEvents := [], serverAlive := true }
        = Except.ok s2 ∧
      jdictGet s2.responseDict (J.str "r1")
        = some (match (fun (p : J) => Except.ok (ε := String) p) (J.obj []) with
            | Except.ok r => successBody r
            | Except.error m => errorBody m) := by
  exact params_default_empty [("echo", fun p => Except.ok p)]
    { requestQueue := [[("_request_id", J.str "r1"), ("action", J.str "echo")]]
      responseDict := [], responseEvents := [], serverAlive := true }
    [("_request_id", J.str "r1"), ("action", J.str "echo")]
    [("action", J.str "echo")] [] "r1" "echo" (fun p => Except.ok p)
    rfl rfl rfl rfl rfl

/-- C4: a handler that raises during `process_queue` is caught and converted
to the Outcome `success:false, error:<message>`; `process_queue` returns
normally (no exception reaches the host tick), and the next `process_queue`
call still processes a subsequent unrelated envelope normally, producing its
success Outcome. -/
theorem handler_exception_containment (reg : HandlerRegistry)
    (s : ServerState) (envA envB reqA2 reqB2 : List (String × J))
    (rest : List (List (String × J))) (ridA ridB a b : String)
    (hA hB : Handler) (msg : String) (resB : J)
    (hq : s.requestQueue = envA :: envB :: rest)
    (hpopA : dictPop envA "_request_id" = Except.ok (J.str ridA, reqA2))
    (hactA : dictGet reqA2 "action" = some (J.str a))
    (hregA : regLookup reg a = some hA)
    (hraise : hA (dictGetD reqA2 "params" (J.obj [])) = Except.error msg)
    (hpopB : dictPop envB "_request_id" = Except.ok (J.str ridB, reqB2))
    (hactB : dictGet reqB2 "action" = some (J.str b))
    (hregB : regLookup reg b = some hB)
    (hokB : hB (dictGetD reqB2 "params" (J.obj [])) = Except.ok resB) :
    ∃ s1, process_queue reg s = Except.ok s1 ∧
      jdictGet s1.responseDict (J.str ridA) = some (errorBody msg) ∧
      ∃ s2, process_queue reg s1 = Except.ok s2 ∧
        jdictGet s2.responseDict (J.str ridB) = some (successBody resB) ∧
        s2.requestQueue = rest := by
  simp only [process_queue, queueGetNowait, hq, hpopA, hactA, registryGet,
    hregA, hraise, pyHashable, if_true]
  refine ⟨_, rfl, ?_, ?_⟩
  · simp [jdictGet_set_self _ _ _ (jkeyEq_str_refl ridA)]
  · dsimp only
    simp only [hpopB, hactB, registryGet, hregB, hokB, pyHashable, if_true]
    refine ⟨_, rfl, ?_, ?_⟩
    · simp [jdictGet_set_self _ _ _ (jkeyEq_str_refl ridB)]
    · simp

/-- C4 witness: a concrete registry where action "boom" raises and action
"good" succeeds; the first pump stores the error Outcome for "boom", the
second pump still stores the success Outcome for "good" and empties the
queue. -/
theorem handler_exception_containment_witness :
    ∃ s1,
      process_queue
        [("boom", fun _ => Except.error "boom failed"),
         ("good", fun _ => Except.ok (J.str "done"))]
        { requestQueue :=
            [[("_request_id", J.str "r1"), ("action", J.str "boom")],
             [("_request_id", J.str "r2"), ("action", J.str "good")]]
          responseDict := [], responseEvents := [], serverAlive := true }
        = Except.ok s1 ∧
      jdictGet s1.responseDict (J.str "r1") = some (errorBody "boom failed") ∧
      ∃ s2,
        process_queue
          [("boom", fun _ => Except.error "boom failed"),
           ("good", fun _ => Except.ok (J.str "done"))] s1 = Except.ok s2 ∧
        jdictGet s2.responseDict (J.str "r2")
          = some (successBody (J.str "done")) ∧
        s2.requestQueue = [] := by
  exact handler_exception_containment
    [("boom", fun _ => Except.error "boom failed"),
     ("good", fun _ => Except.ok (J.str "done"))]
    { requestQueue :=
        [[("_request_id", J.str "r1"), ("action", J.str "boom")],
         [("_request_id", J.str "r2"), ("action", J.str "good")]]
      responseDict := [], responseEvents := [], serverAlive := true }
    [("_request_id", J.str "r1"), ("action", J.str "boom")]
    [("_request_id", J.str "r2"), ("action", J.str "good")]
    [("action", J.str "boom")] [("action", J.str "good")] []
    "r1" "r2" "boom" "good"
    (fun _ => Except.error "boom failed") (fun _ => Except.ok (J.str "done"))
    "boom failed" (J.str "done")
    rfl rfl rfl rfl rfl rfl rfl rfl rfl

/-- C1: when the 30-second wait times out before an Outcome arrives (no
entry for the id in `response_dict`), the Listener answers with exactly the
body `success:false, error:"Request timeout"` and removes the PendingCall
entry from `response_events`; a later `process_queue` resolving that very
envelope returns normally (does not raise) and leaves `response_events`
untouched, so no response is delivered to the already-timed-out caller. -/
theorem timeout_then_resolve_is_silent (reg : HandlerRegistry)
    (s : ServerState) (env request2 : List (String × J))
    (rest : List (List (String × J))) (rid : String) (hOpt : Option Handler)
    (hNoOutcome : jdictGet s.responseDict (J.str rid) = none)
    (hq : s.requestQueue = env :: rest)
    (hpop : dictPop env "_request_id" = Except.ok (J.str rid, request2))
    (hreg : registryGet reg (dictGet request2 "action") = Except.ok hOpt) :
    (do_POST_afterWait rid s).1 = (500, errorBody "Request timeout") ∧
    jdictGet (do_POST_afterWait rid s).2.responseEvents (J.str rid) = none ∧
    ∃ s2, process_queue reg (do_POST_afterWait rid s).2 = Except.ok s2 ∧
      s2.responseEvents = (do_POST_afterWait rid s).2.responseEvents ∧
      jdictGet s2.responseEvents (J.str rid) = none := by
  have hpopNone : jdictPop s.responseDict (J.str rid) = none :=
    jdictPop_eq_none _ _ hNoOutcome
  have hAfter : do_POST_afterWait rid s =
      ((500, errorBody "Request timeout"),
        { s with responseEvents :=
            jdictDelIfPresent s.responseEvents (J.str rid) }) := by
    simp [do_POST_afterWait, hpopNone]
  have hEv : jdictGet (do_POST_afterWait rid s).2.responseEvents (J.str rid)
      = none := by
    rw [hAfter]
    exact jdictGet_delIfPresent_self _ _
  refine ⟨by rw [hAfter], hEv, ?_⟩
  have hcont : jdictContains (do_POST_afterWait rid s).2.responseEvents
      (J.str rid) = false := by
    simp [jdictContains, hEv]
  have hq2 : (do_POST_afterWait rid s).2.requestQueue = env :: rest := by
    rw [hAfter]
    exact hq
  simp only [process_queue, queueGetNowait, hq2, hpop, hreg, pyHashable,
    hcont, Bool.and_false, if_true, Bool.false_eq_true, if_false]
  refine ⟨_, rfl, by simp, by simpa using hEv⟩

/-- C1 witness: a concrete timed-out request "r1" (registered event, queued
envelope, empty `response_dict`): the timeout body is sent, the event entry
is removed, and the late resolution by `process_queue` returns normally
without recreating or signalling any event for "r1". -/
theorem timeout_then_resolve_is_silent_witness :
    (do_POST_afterWait "r1"
        { requestQueue := [[("_request_id", J.str "r1"), ("action", J.str "x")]]
          responseDict := [], responseEvents := [(J.str "r1", false)]
          serverAlive := true }).1
      = (500, errorBody "Request timeout") ∧
    jdictGet (do_POST_afterWait "r1"
        { requestQueue := [[("_request_id", J.str "r1"), ("action", J.str "x")]]
          responseDict := [], responseEvents := [(J.str "r1", false)]
          serverAlive := true }).2.responseEvents (J.str "r1") = none ∧
    ∃ s2, process_queue []
        (do_POST_afterWait "r1"
          { requestQueue := [[("_request_id", J.str "r1"), ("action", J.str "x")]]
            responseDict := [], responseEvents := [(J.str "r1", false)]
            serverAlive := true }).2 = Except.ok s2 ∧
      s2.responseEvents = (do_POST_afterWait "r1"
          { requestQueue := [[("_request_id", J.str "r1"), ("action", J.str "x")]]
            responseDict := [], responseEvents := [(J.str "r1", false)]
            serverAlive := true }).2.responseEvents ∧
      jdictGet s2.responseEvents (J.str "r1") = none := by
  exact timeout_then_resolve_is_silent []
    { requestQueue := [[("_request_id", J.str "r1"), ("action", J.str "x")]]
      responseDict := [], responseEvents := [(J.str "r1", false)]
      serverAlive := true }
    [("_request_id", J.str "r1"), ("action", J.str "x")]
    [("action", J.str "x")] [] "r1" none rfl rfl rfl rfl

/-- C2 counterexample: a POST body that decodes to the JSON object with no
`action` field is not answered immediately with a 400: `do_POST` registers a
PendingCall, enqueues the envelope onto the Handoff Queue, and blocks on the
event wait, contradicting the claim for the missing-`action` case. -/
theorem missing_action_is_enqueued :
    (do_POST_phase1 (Except.ok (J.obj [])) "r1" S0).1
      = PostPhase1.waiting "r1" ∧
    (do_POST_phase1 (Except.ok (J.obj [])) "r1" S0).2.requestQueue
      = [[("_request_id", J.str "r1")]] ∧
    (do_POST_phase1 (Except.ok (J.obj [])) "r1" S0).2.responseEvents
      = [(J.str "r1", false)] := by
  refine ⟨rfl, rfl, rfl⟩

/-- C2 amended: malformed JSON is answered immediately with HTTP 400 and a
structured error, enqueueing nothing and never blocking; a body that decodes
to a non-object value is also answered immediately without enqueueing or
blocking, but with HTTP 500 (the TypeError message from
`request["_request_id"] = ...`, caught by the generic `except Exception`);
a body that decodes to an object lacking `action` is NOT rejected by the
Listener — it is registered, enqueued and waited on like any well-formed
command (the Dispatcher later answers it as an unknown action). -/
theorem listener_parse_handling (rid : String) (s : ServerState) :
    (∀ e, do_POST_phase1 (Except.error e) rid s
        = (PostPhase1.responded 400 (errorBody ("Invalid JSON: " ++ e)), s)) ∧
    (∀ v, (∀ fields, v ≠ J.obj fields) →
      ∃ m, do_POST_phase1 (Except.ok v) rid s
        = (PostPhase1.responded 500 (errorBody m), s)) ∧
    (∀ fields, do_POST_phase1 (Except.ok (J.obj fields)) rid s
        = (PostPhase1.waiting rid,
          { s with
            responseEvents := jdictSet s.responseEvents (J.str rid) false
            requestQueue :=
              queuePut s.requestQueue
                (dictSet fields "_request_id" (J.str rid)) })) := by
  refine ⟨fun e => rfl, ?_, fun fields => rfl⟩
  intro v hv
  cases v with
  | null => exact ⟨_, rfl⟩
  | bool b => exact ⟨_, rfl⟩
  | num n => exact ⟨_, rfl⟩
  | str a => exact ⟨_, rfl⟩
  | arr xs => exact ⟨_, rfl⟩
  | obj fields => exact absurd rfl (hv fields)

/-- C2 amended witness: at concrete inputs, a parse failure is a 400 no-op
on the state, a decoded string body is a 500 no-op on the state, and a
decoded object body transitions to the waiting state. -/
theorem listener_parse_handling_witness :
    do_POST_phase1 (Except.error "Expecting value") "r1" S0
      = (PostPhase1.responded 400
          (errorBody "Invalid JSON: Expecting value"), S0) ∧
    (∃ m, do_POST_phase1 (Except.ok (J.str "hi")) "r1" S0
      = (PostPhase1.responded 500 (errorBody m), S0)) ∧
    do_POST_phase1 (Except.ok (J.obj [("action", J.str "x")])) "r1" S0
      = (PostPhase1.waiting "r1",
        { S0 with
          responseEvents := jdictSet S0.responseEvents (J.str "r1") false
          requestQueue :=
            queuePut S0.requestQueue
              (dictSet [("action", J.str "x")] "_request_id" (J.str "r1")) }) := by
  exact ⟨(listener_parse_handling "r1" S0).1 "Expecting value",
    (listener_parse_handling "r1" S0).2.1 (J.str "hi")
      (fun fields h => J.noConfusion h),
    (listener_parse_handling "r1" S0).2.2 [("action", J.str "x")]⟩

/-- C7 counterexample: a well-formed command body (`{"action": "x"}`) that
is enqueued and whose wait ends without an Outcome in `response_dict` is
answered with HTTP status 500 (body `success:false, error:"Request
timeout"`), not 200: not every response to a well-formed command body
carries status 200. -/
theorem wellformed_timeout_status_500 :
    (do_POST_phase1 (Except.ok (J.obj [("action", J.str "x")])) "r1" S0).1
      = PostPhase1.waiting "r1" ∧
    (do_POST_afterWait "r1"
        (do_POST_phase1 (Except.ok (J.obj [("action", J.str "x")])) "r1"
          S0).2).1
      = (500, errorBody "Request timeout") := by
  refine ⟨rfl, rfl⟩

/-- C7 amended: a well-formed command whose Outcome is present when the wait
ends is answered 200, whether the Outcome body has `success:true` or
`success:false`; when no Outcome is present (timeout) the answer carries
status 500 with the structured timeout body; status 400 is used only for a
malformed (JSON-undecodable) body. -/
theorem response_status_policy (rid : String) (s : ServerState) :
    (∀ resp rd, jdictPop s.responseDict (J.str rid) = some (resp, rd) →
      (do_POST_afterWait rid s).1 = (200, resp)) ∧
    (jdictPop s.responseDict (J.str rid) = none →
      (do_POST_afterWait rid s).1 = (500, errorBody "Request timeout")) ∧
    (∀ parsed st b, (do_POST_phase1 parsed rid s).1
        = PostPhase1.responded st b → st = 400 →
      ∃ e, parsed = Except.error e ∧
        b = errorBody ("Invalid JSON: " ++ e)) := by
  refine ⟨?_, ?_, ?_⟩
  · intro resp rd hpop
    simp [do_POST_afterWait, hpop]
  · intro hpop
    simp [do_POST_afterWait, hpop]
  · intro parsed st b hresp hst
    cases parsed with
    | error e =>
      refine ⟨e, rfl, ?_⟩
      simp only [do_POST_phase1] at hresp
      exact (PostPhase1.responded.injEq _ _ _ _).mp hresp |>.2.symm
    | ok v =>
      exfalso
      cases hv : setitemRequestId v rid with
      | error m =>
        simp only [do_POST_phase1, hv] at hresp
        have : (500 : Nat) = st :=
          ((PostPhase1.responded.injEq _ _ _ _).mp hresp).1
        omega
      | ok request =>
        simp only [do_POST_phase1, hv] at hresp
        exact PostPhase1.noConfusion hresp

/-- C7 amended witness: a stored success Outcome and a stored error Outcome
are both sent with 200; an absent Outcome is sent with 500; and a concrete
400 response implies its input was a parse error. -/
theorem response_status_policy_witness :
    (do_POST_afterWait "r1"
        { requestQueue := [], responseDict := [(J.str "r1", successBody J.null)]
          responseEvents := [], serverAlive := true }).1
      = (200, successBody J.null) ∧
    (do_POST_afterWait "r1"
        { requestQueue := [], responseDict := [(J.str "r1", errorBody "boom")]
          responseEvents := [], serverAlive := true }).1
      = (200, errorBody "boom") ∧
    (do_POST_afterWait "r1" S0).1 = (500, errorBody "Request timeout") ∧
    (∃ e, (Except.error "bad" : Except String J) = Except.error e ∧
      errorBody "Invalid JSON: bad" = errorBody ("Invalid JSON: " ++ e)) := by
  refine ⟨?_, ?_, ?_, ?_⟩
  · exact (response_status_policy "r1"
      { requestQueue := [], responseDict := [(J.str "r1", successBody J.null)]
        responseEvents := [], serverAlive := true }).1
      (successBody J.null) [] rfl
  · exact (response_status_policy "r1"
      { requestQueue := [], responseDict := [(J.str "r1", errorBody "boom")]
        responseEvents := [], serverAlive := true }).1
      (errorBody "boom") [] rfl
  · exact (response_status_policy "r1" S0).2.1 rfl
  · exact (response_status_policy "r1" S0).2.2 (Except.error "bad") 400
      (errorBody "Invalid JSON: bad") rfl rfl

/-- C9: calling `shutdown()` twice in a row is a no-op the second time (the
server reference is already cleared, so the guarded body is skipped and no
error is produced), and after either call `start()` succeeds again with the
same host and port (the close released the only binding of the port). -/
theorem shutdown_idempotent_restart (l : Lifecycle) (env : List Nat)
    (hSrv : l.hasServer = true)
    (hCount : env.count l.port = 1) :
    shutdown (shutdown l env).1 (shutdown l env).2 = shutdown l env ∧
    (∃ l2 env2, start (shutdown l env).1 (shutdown l env).2
        = Except.ok (l2, env2) ∧
      l2.running = true ∧ l2.hasServer = true ∧
      l2.host = l.host ∧ l2.port = l.port) := by
  have h1 : shutdown l env =
      ({ l with running := false, hasServer := false }, env.erase l.port) := by
    simp [shutdown, hSrv]
  have hmem : l.port ∉ env.erase l.port := by
    intro hmem
    have := List.count_erase_self l.port env
    have hpos := List.count_pos_iff.mpr hmem
    omega
  constructor
  · rw [h1]
    simp [shutdown]
  · rw [h1]
    have hstart : start { l with running := false, hasServer := false }
        (env.erase l.port)
        = Except.ok ({ l with running := true, hasServer := true },
            l.port :: env.erase l.port) := by
      simp [start, hmem]
    exact ⟨_, _, hstart, rfl, rfl, rfl, rfl⟩

/-- C9 witness: a running server on port 8765 (the only binding of that
port): the second shutdown is a no-op and a restart on the same host and
port succeeds. -/
theorem shutdown_idempotent_restart_witness :
    shutdown
        (shutdown ⟨"localhost", 8765, true, true⟩ [8765]).1
        (shutdown ⟨"localhost", 8765, true, true⟩ [8765]).2
      = shutdown ⟨"localhost", 8765, true, true⟩ [8765] ∧
    (∃ l2 env2,
      start (shutdown ⟨"localhost", 8765, true, true⟩ [8765]).1
          (shutdown ⟨"localhost", 8765, true, true⟩ [8765]).2
        = Except.ok (l2, env2) ∧
      l2.running = true ∧ l2.hasServer = true ∧
      l2.host = "localhost" ∧ l2.port = 8765) := by
  exact shutdown_idempotent_restart ⟨"localhost", 8765, true, true⟩ [8765]
    rfl rfl

/-- C3 (code bug evidence): when a connection with a well-formed command
body is pending, the trace of one TIMER invocation of `modal` — which runs
entirely on the thread that received the timer event — contains the blocking
`event.wait` step.  `NonBlockingHTTPServer` is a plain
`socketserver.TCPServer`, so `poll → handle_request_noblock →
handle_request` dispatches `do_POST`, including its 30-second
`event.wait(timeout=30.0)`, synchronously on the tick thread, contrary to
the claim that the per-request wait never occurs on the thread that invokes
`tick()`. -/
theorem tick_thread_runs_blocking_wait :
    Step.eventWait "r1" ∈
      modal_tick_steps true
        (some (Except.ok (J.obj [("action", J.str "x")]), "r1")) := by
  decide

end BlenderOrch
